import Mathlib

/-!
# Verification of the WSLCB open-data portal wrapper

Shallow embedding of `cannapy/us/wa/wslcb/portal.py`.

The module wraps a remote Socrata service.  We model:

* rows returned by the remote service as association lists of string fields;
* the remote `client.get` endpoint as a function from the (lazily created)
  client handle and a request record to either a Python-style error or a
  list of rows; the metadata endpoint analogously;
* each portal operation in state-passing style, returning the list of
  remote events it issued (its trace), its outcome, and the portal state
  after the call (the lazily initialised client handle lives in the state).

External collaborators (the sodapy HTTP client, pandas, `time.localtime`)
are parameters of the embedding; everything the portal module itself does
is translated from the source.
-/

set_option autoImplicit false

/-- A fetched row: a mapping from column name to value (a Python dict as
returned by sodapy, modelled as an association list). -/
abbrev Row := List (String × String)

/-- The Python exceptions this module can raise or propagate.  `indexError`
models `IndexError` (sequence index out of range), `keyError` models
`KeyError` (dict lookup failure), `valueError` models `ValueError` (failed
`int()` conversion), and `remoteError` stands for any exception raised by
the remote sodapy client (network, auth, not-found, ...). -/
inductive PyError where
  | indexError
  | keyError (key : String)
  | valueError (s : String)
  | remoteError (code : Nat)
deriving DecidableEq, Repr

/-- Classifies conversion errors (Python `ValueError`). -/
def PyError.isValueError : PyError → Bool
  | .valueError _ => true
  | _ => false

/-- A keyword-argument record for a `client.get(dataset_id, ...)` call.
Absent keyword arguments are `none`. -/
structure GetRequest where
  dataset_id : String
  select : Option String := none
  order : Option String := none
  offset : Option Nat := none
  limit : Option Nat := none
deriving DecidableEq, Repr

/-- The sodapy `Socrata(domain, app_token)` handle: the embedding records
the construction arguments, which is all the wrapper controls. -/
structure SocrataClient where
  domain : String
  app_token : String
deriving DecidableEq, Repr

/-- The `WSLCBPortal` instance state: the stored app token and the lazily
initialised client handle (`None` until the first `client` access). -/
structure WSLCBPortal where
  _app_token : String
  _client : Option SocrataClient
deriving DecidableEq, Repr

/-- Remote event issued by the wrapper: a `client.get` call, a
`client.get_metadata` call, or a `pd.DataFrame.from_records` construction. -/
inductive Event where
  | get (req : GetRequest)
  | getMetadata (dataset_id : String)
  | mkFrame (columns : List String)
deriving DecidableEq, Repr

/-- Behaviour of the remote `client.get` endpoint: given the client handle
and a request, either raise an error or return a list of rows. -/
abbrev Service := SocrataClient → GetRequest → Except PyError (List Row)

/-- A dataset metadata record, restricted to numeric fields (the wrapper
only ever reads the numeric `rowsUpdatedAt` field). -/
abbrev Metadata := List (String × Int)

/-- Behaviour of the remote `client.get_metadata` endpoint. -/
abbrev MetaService := SocrataClient → String → Except PyError Metadata

/-- Result of running one portal operation: the remote events issued in
order (including, for a raising run, the event whose call raised), the
outcome, and the portal state afterwards. -/
structure Outcome (α : Type) where
  trace : List Event
  res : Except PyError α
  state : WSLCBPortal

/-- Abstract stand-in for the Python `time.struct_time` produced by
`time.localtime`; the conversion itself is external and passed as a
parameter. -/
structure StructTime where
  raw : Int
deriving DecidableEq, Repr

/-- Abstract stand-in for a pandas `DataFrame`: `pd.DataFrame.from_records`
is external, so the embedding records the arguments it was given. -/
structure DataFrame where
  columns : List String
  records : List Row
deriving DecidableEq, Repr

/-- `WSLCB_PORTAL_URL` — the fixed portal address. -/
def WSLCB_PORTAL_URL : String := "data.lcb.wa.gov"

/-- `WSLCB_PORTAL_DATASET_COLUMNS` — the static dataset-id → column-list
table, reproduced verbatim from the source. -/
def WSLCB_PORTAL_DATASET_COLUMNS : List (String × List String) := [
  ("3qmf-vgdg", ["date", "license_number", "county_name", "city_name",
                 "action"]),
  ("8rrd-wvpk", ["sales_date", "sales_year_month", "pounds_harvested",
                 "grams_harvested"]),
  ("bhbp-x4eb", ["license", "type", "createdate", "active", "organization",
                 "address", "address_line_2", "city", "state", "zip",
                 "county", "dayphone", "ubi"]),
  ("dgm4-3cm6", ["visit_date", "license_number", "county_name", "city_name",
                 "case", "violation_code", "wac_code", "penalty_type"]),
  ("kdyh-jjfc", ["sales_date", "sales_year_month", "type",
                 "child_usableweight_grams", "child_usableweight_pounds"]),
  ("msk5-ts9q", ["sessiontimedate", "orgname", "inventory_type",
                 "usableweight_grams", "usableweight_pounds", "price"]),
  ("w7wg-8m52", ["date", "license_number", "city_name", "county_name",
                 "activity"]),
  ("vbqh-2tf4", ["sales_date", "sales_year_month", "organization", "type",
                 "childweight_pounds", "childweight_grams"])
]

/-- Python dict indexing `WSLCB_PORTAL_DATASET_COLUMNS[dataset_id]`:
returns the column list or raises `KeyError`. -/
def datasetColumns (dataset_id : String) : Except PyError (List String) :=
  match WSLCB_PORTAL_DATASET_COLUMNS.find? (fun kv => kv.1 == dataset_id) with
  | some kv => .ok kv.2
  | none => .error (.keyError dataset_id)

/-- Python dict indexing `row[key]` on a fetched row: the value, or
`KeyError`. -/
def lookupField (row : Row) (key : String) : Except PyError String :=
  match row.find? (fun kv => kv.1 == key) with
  | some kv => .ok kv.2
  | none => .error (.keyError key)

/-- Python dict indexing `metadata[key]` on a metadata record. -/
def metaLookup (md : Metadata) (key : String) : Except PyError Int :=
  match md.find? (fun kv => kv.1 == key) with
  | some kv => .ok kv.2
  | none => .error (.keyError key)

/-- Accumulates the value of a decimal digit string; fails on the first
non-digit character. -/
def digitsVal : List Char → Nat → Option Nat
  | [], acc => some acc
  | c :: cs, acc =>
    if c.isDigit then digitsVal cs (acc * 10 + (c.toNat - 48)) else none

/-- Parses a non-empty string of decimal digits. -/
def parseDigits : List Char → Option Nat
  | [] => none
  | cs => digitsVal cs 0

/-- Strips leading and trailing whitespace, as Python `int()` does before
parsing. -/
def pyTrim (cs : List Char) : List Char :=
  ((cs.dropWhile Char.isWhitespace).reverse.dropWhile Char.isWhitespace).reverse

/-- Python `int(s)` on a string: optional surrounding whitespace, optional
sign, then decimal digits; anything else raises `ValueError`. -/
def pyInt (s : String) : Except PyError Int :=
  let cs := pyTrim s.toList
  let core : Option Int :=
    match cs with
    | '-' :: rest => (parseDigits rest).map (fun n => -(n : Int))
    | '+' :: rest => (parseDigits rest).map (fun n => (n : Int))
    | _ => (parseDigits cs).map (fun n => (n : Int))
  match core with
  | some n => .ok n
  | none => .error (.valueError s)

/-- `WSLCBPortal.__init__(self, app_token='')`: an explicitly passed
non-empty token is stored as is; an empty token falls back to
`os.getenv('WSLCB_APP_TOKEN', '')`.  The process environment is the
parameter `env`. -/
def WSLCBPortal.init (app_token : String) (env : String → Option String) :
    WSLCBPortal :=
  let app_token :=
    if app_token = "" then (env "WSLCB_APP_TOKEN").getD "" else app_token
  { _app_token := app_token, _client := none }

/-- The `app_token` property getter. -/
def WSLCBPortal.app_token (p : WSLCBPortal) : String :=
  p._app_token

/-- The `app_token` property setter. -/
def WSLCBPortal.set_app_token (p : WSLCBPortal) (value : String) :
    WSLCBPortal :=
  { p with _app_token := value }

/-- The `client` property: constructs
`Socrata(WSLCB_PORTAL_URL, self.app_token)` on first access, caches it in
`self._client`, and returns the cached handle afterwards.  Returns the
handle together with the (possibly updated) instance state. -/
def WSLCBPortal.client (p : WSLCBPortal) : SocrataClient × WSLCBPortal :=
  match p._client with
  | some c => (c, p)
  | none =>
    let c : SocrataClient :=
      { domain := WSLCB_PORTAL_URL, app_token := p.app_token }
    (c, { p with _client := some c })

/-- The request issued by `get_dataset_count`:
`client.get(dataset_id, select='count(*)')`. -/
def countRequest (dataset_id : String) : GetRequest :=
  { dataset_id := dataset_id, select := some "count(*)" }

/-- The request issued by `get_dataset`:
`client.get(dataset_id, limit=100000)`. -/
def pageRequest (dataset_id : String) : GetRequest :=
  { dataset_id := dataset_id, limit := some 100000 }

/-- One paging request of `get_entire_dataset`:
`client.get(dataset_id, order=order_by, offset=offset, limit=limit)`. -/
def entirePageRequest (dataset_id order_by : String) (offset limit : Nat) :
    GetRequest :=
  { dataset_id := dataset_id, order := some order_by, offset := some offset,
    limit := some limit }

/-- `get_dataset_metadata(self, dataset_id)`: one `client.get_metadata`
call, result propagated unchanged. -/
def get_dataset_metadata (msvc : MetaService) (p : WSLCBPortal)
    (dataset_id : String) : Outcome Metadata :=
  ⟨[.getMetadata dataset_id], msvc (p.client).1 dataset_id, (p.client).2⟩

/-- `get_dataset_count(self, dataset_id)`: issues
`client.get(dataset_id, select='count(*)')` and returns
`int(metadata[0]['count'])`; `metadata[0]` raises `IndexError` on an empty
result, `['count']` raises `KeyError`, and `int` raises `ValueError` on a
non-numeric string. -/
def get_dataset_count (svc : Service) (p : WSLCBPortal)
    (dataset_id : String) : Outcome Int :=
  ⟨[.get (countRequest dataset_id)],
   match svc (p.client).1 (countRequest dataset_id) with
   | .error e => .error e
   | .ok [] => .error .indexError
   | .ok (row :: _) => (lookupField row "count").bind pyInt,
   (p.client).2⟩

/-- `get_dataset(self, dataset_id)`: a single
`client.get(dataset_id, limit=100000)` call. -/
def get_dataset (svc : Service) (p : WSLCBPortal) (dataset_id : String) :
    Outcome (List Row) :=
  ⟨[.get (pageRequest dataset_id)],
   svc (p.client).1 (pageRequest dataset_id),
   (p.client).2⟩

/-- The offsets `range(0, count, 100000)` visited by the paging loop of
`get_entire_dataset` (`count` comes from `int(...)`, so it is an integer;
a non-positive count yields no offsets). -/
def pageOffsets (count : Int) : List Nat :=
  (List.range ((count.toNat + 99999) / 100000)).map (fun i => i * 100000)

/-- The `for offset in range(0, count, limit)` loop body of
`get_entire_dataset`: for each offset issue
`client.get(dataset_id, order=order_by, offset=offset, limit=limit)` and
extend the accumulated list; a raising call aborts the loop with that
error. -/
def fetchPages (svc : Service) (dataset_id order_by : String) (limit : Nat) :
    List Nat → List Row → WSLCBPortal → Outcome (List Row)
  | [], dataset, p => ⟨[], .ok dataset, p⟩
  | offset :: rest, dataset, p =>
    let req := entirePageRequest dataset_id order_by offset limit
    match svc (p.client).1 req with
    | .error e => ⟨[.get req], .error e, (p.client).2⟩
    | .ok rows =>
      let o := fetchPages svc dataset_id order_by limit rest (dataset ++ rows)
        (p.client).2
      ⟨.get req :: o.trace, o.res, o.state⟩

/-- `get_entire_dataset(self, dataset_id, order_by)`: fetch the total
count, then page through `range(0, count, 100000)` accumulating rows. -/
def get_entire_dataset (svc : Service) (p : WSLCBPortal)
    (dataset_id order_by : String) : Outcome (List Row) :=
  let o := get_dataset_count svc p dataset_id
  match o.res with
  | .error e => ⟨o.trace, .error e, o.state⟩
  | .ok count =>
    let o2 := fetchPages svc dataset_id order_by 100000 (pageOffsets count)
      [] o.state
    ⟨o.trace ++ o2.trace, o2.res, o2.state⟩

/-- `get_dataframe(self, dataset_id)`: fetch a page via `get_dataset`,
look the dataset id up in the static column table (`KeyError` if absent),
then construct the frame via `pd.DataFrame.from_records` (recorded as an
`Event.mkFrame`). -/
def get_dataframe (svc : Service) (p : WSLCBPortal) (dataset_id : String) :
    Outcome DataFrame :=
  let o := get_dataset svc p dataset_id
  match o.res with
  | .error e => ⟨o.trace, .error e, o.state⟩
  | .ok dataset =>
    match datasetColumns dataset_id with
    | .error e => ⟨o.trace, .error e, o.state⟩
    | .ok columns =>
      ⟨o.trace ++ [.mkFrame columns], .ok ⟨columns, dataset⟩, o.state⟩

/-- `dataset_last_updated(self, dataset_id)`: fetch the metadata, read the
numeric `rowsUpdatedAt` field (`KeyError` if missing), and convert it with
the external `time.localtime`, passed as `localtime`. -/
def dataset_last_updated (msvc : MetaService) (localtime : Int → StructTime)
    (p : WSLCBPortal) (dataset_id : String) : Outcome StructTime :=
  let o := get_dataset_metadata msvc p dataset_id
  ⟨o.trace,
   match o.res with
   | .error e => .error e
   | .ok md =>
     match metaLookup md "rowsUpdatedAt" with
     | .error e => .error e
     | .ok ts => .ok (localtime ts),
   o.state⟩

/-- The `client.get` requests of a trace that carry an `offset` keyword:
these are exactly the paging requests of `get_entire_dataset` (the count
request and the single-page request pass no offset). -/
def pageRequestEvents (tr : List Event) : List GetRequest :=
  tr.filterMap (fun e =>
    match e with
    | .get r => if r.offset.isSome then some r else none
    | _ => none)

/- ### Concrete services used to witness the theorems -/

/-- Witness service: a 250 000-row dataset whose pages are full up to the
count (rows are empty records; only their number matters). -/
def svc250k : Service := fun _ req =>
  match req.select, req.offset with
  | some _, _ => .ok [[("count", "250000")]]
  | none, some k => .ok (List.replicate (min 100000 (250000 - k)) [])
  | none, none => .ok []

/-- The page contents served by `svc250k`, indexed by offset. -/
def pages250k (k : Nat) : List Row :=
  List.replicate (min 100000 (250000 - k)) []

/-- Witness service: a 150 000-row dataset with one distinguishable row
per page. -/
def svc150k : Service := fun _ req =>
  match req.select, req.offset with
  | some _, _ => .ok [[("count", "150000")]]
  | none, some 0 => .ok [[("a", "0")]]
  | none, some _ => .ok [[("a", "1")]]
  | none, none => .ok []

/-- The page contents served by `svc150k`, indexed by offset. -/
def pages150k (k : Nat) : List Row :=
  match k with
  | 0 => [[("a", "0")]]
  | _ => [[("a", "1")]]

/-- Witness service: count 150 000, first page fine, second page raises. -/
def svcFail : Service := fun _ req =>
  match req.select, req.offset with
  | some _, _ => .ok [[("count", "150000")]]
  | none, some 0 => .ok [[("a", "0")]]
  | none, some _ => .error (.remoteError 7)
  | none, none => .ok []

/-- Witness service: every `get` succeeds with an empty page and the count
query reports a one-row dataset. -/
def svc1 : Service := fun _ req =>
  match req.select with
  | some _ => .ok [[("count", "1")]]
  | none => .ok [[("b", "2")]]

/-- Witness service: every `get` returns an empty list of rows. -/
def svcEmpty : Service := fun _ _ => .ok []

/-- A fresh portal instance with no token and an empty environment. -/
def portal0 : WSLCBPortal := WSLCBPortal.init "" (fun _ => none)

/- ### Helper lemmas about the client state machine -/

/-- An already-initialised `client` access returns the cached handle and
leaves the state unchanged. -/
theorem client_cached (p : WSLCBPortal) (c : SocrataClient)
    (h : p._client = some c) : p.client = (c, p) := by
  unfold WSLCBPortal.client
  rw [h]

/-- After a `client` access the handle field caches the returned handle. -/
theorem client_state (p : WSLCBPortal) :
    (p.client).2._client = some (p.client).1 := by
  cases h : p._client <;> simp [WSLCBPortal.client, h]

/-- A `client` access never touches the stored token. -/
theorem client_token (p : WSLCBPortal) :
    (p.client).2._app_token = p._app_token := by
  cases h : p._client <;> simp [WSLCBPortal.client, h]

/-- `client` accesses are idempotent on the state. -/
theorem client_idem (p : WSLCBPortal) :
    (p.client).2.client = ((p.client).1, (p.client).2) :=
  client_cached _ _ (client_state p)

/- ### Helper lemmas about the paging arithmetic -/

/-- On a natural count, `pageOffsets` is the usual strided range with
`⌈N/100000⌉` entries. -/
theorem pageOffsets_natCast (N : Nat) :
    pageOffsets (N : Int)
      = (List.range ((N + 99999) / 100000)).map (fun i => i * 100000) := by
  simp [pageOffsets]

/-- Every generated offset is strictly below the count. -/
theorem pageOffsets_lt (N : Nat) (k : Nat)
    (hk : k ∈ (List.range ((N + 99999) / 100000)).map (fun i => i * 100000)) :
    k < N := by
  simp only [List.mem_map, List.mem_range] at hk
  obtain ⟨i, hi, rfl⟩ := hk
  omega

/-- The generated offsets are strictly ascending. -/
theorem pageOffsets_pairwise (count : Int) :
    List.Pairwise (fun a b => a < b) (pageOffsets count) := by
  unfold pageOffsets
  exact (List.pairwise_lt_range _).map _ (fun a b hab => by omega)

/-- Full pages of size 100000 up to a count of `N` hold `N` rows in all:
the page at offset `k` holds `min 100000 (N - k)` rows. -/
theorem sum_min_pages (N : Nat) :
    (((List.range ((N + 99999) / 100000)).map (fun i => i * 100000)).map
        (fun k => min 100000 (N - k))).sum = N := by
  induction N using Nat.strong_induction_on with
  | _ N ih =>
    rcases Nat.eq_zero_or_pos N with h0 | hpos
    · subst h0
      norm_num
    · have hm : (N + 99999) / 100000 = ((N - 100000) + 99999) / 100000 + 1 := by
        omega
      rw [hm, List.range_succ_eq_map]
      rw [List.map_cons, List.map_cons, List.map_map, List.map_map,
        List.sum_cons]
      have hcongr : (List.range (((N - 100000) + 99999) / 100000)).map
            (((fun k => min 100000 (N - k)) ∘ (fun i => i * 100000)) ∘ Nat.succ)
          = (List.range (((N - 100000) + 99999) / 100000)).map
            ((fun k => min 100000 ((N - 100000) - k)) ∘ (fun i => i * 100000)) := by
        apply List.map_congr_left
        intro i _
        simp only [Function.comp_apply]
        omega
      rw [hcongr]
      have hih := ih (N - 100000) (by omega)
      rw [List.map_map] at hih
      rw [hih]
      omega

/- ### Helper lemmas about the paging loop -/

/-- When every visited page succeeds, the loop issues exactly one request
per offset, in offset order, and appends the pages in that order to the
accumulator.  The state `p` is assumed stable (client already cached). -/
theorem fetchPages_ok (svc : Service) (did ord : String) (limit : Nat)
    (c : SocrataClient) (p : WSLCBPortal) (hp : p.client = (c, p))
    (pages : Nat → List Row) (offs : List Nat) :
    ∀ acc : List Row,
      (∀ o ∈ offs, svc c (entirePageRequest did ord o limit) = .ok (pages o)) →
      fetchPages svc did ord limit offs acc p =
        ⟨offs.map (fun o => .get (entirePageRequest did ord o limit)),
         .ok (acc ++ (offs.map pages).flatten), p⟩ := by
  induction offs with
  | nil => intro acc _; simp [fetchPages]
  | cons o rest ih =>
    intro acc h
    have ho := h o (by simp)
    have hrest := fun o' ho' => h o' (List.mem_cons_of_mem _ ho')
    simp only [fetchPages, hp, ho]
    rw [ih (acc ++ pages o) hrest]
    simp [List.append_assoc]

/-- When the pages at the offsets of `pre` succeed and the page at `k`
raises `e`, the loop's trace is the requests for `pre` followed by the
failing request, the outcome is `e`, and the accumulated rows are gone. -/
theorem fetchPages_error (svc : Service) (did ord : String) (limit : Nat)
    (c : SocrataClient) (p : WSLCBPortal) (hp : p.client = (c, p))
    (pages : Nat → List Row) (k : Nat) (e : PyError) (post : List Nat)
    (pre : List Nat) :
    ∀ acc : List Row,
      (∀ o ∈ pre, svc c (entirePageRequest did ord o limit) = .ok (pages o)) →
      svc c (entirePageRequest did ord k limit) = .error e →
      fetchPages svc did ord limit (pre ++ k :: post) acc p =
        ⟨(pre.map (fun o => .get (entirePageRequest did ord o limit)))
            ++ [.get (entirePageRequest did ord k limit)],
         .error e, p⟩ := by
  induction pre with
  | nil =>
    intro acc _ hk
    simp only [List.nil_append, fetchPages, hp, hk]
    simp
  | cons o rest ih =>
    intro acc h hk
    have ho := h o (by simp)
    have hrest := fun o' ho' => h o' (List.mem_cons_of_mem _ ho')
    simp only [List.cons_append, fetchPages, hp, ho]
    simp only [List.append_eq]
    rw [ih (acc ++ pages o) hrest hk]
    simp

/-- On a stable state the loop leaves the state unchanged, whatever the
service answers. -/
theorem fetchPages_state (svc : Service) (did ord : String) (limit : Nat)
    (c : SocrataClient) (p : WSLCBPortal) (hp : p.client = (c, p))
    (offs : List Nat) :
    ∀ acc : List Row, (fetchPages svc did ord limit offs acc p).state = p := by
  induction offs with
  | nil => intro acc; simp [fetchPages]
  | cons o rest ih =>
    intro acc
    simp only [fetchPages, hp]
    cases svc c (entirePageRequest did ord o limit) <;> simp [hp, ih]

/-- Every `get` event the loop emits carries `limit` as its limit keyword
and some offset, on any starting state. -/
theorem fetchPages_limit (svc : Service) (did ord : String) (limit : Nat)
    (offs : List Nat) :
    ∀ (acc : List Row) (p : WSLCBPortal) (r : GetRequest),
      Event.get r ∈ (fetchPages svc did ord limit offs acc p).trace →
      r.limit = some limit ∧ r.offset.isSome = true := by
  induction offs with
  | nil => intro acc p r h; simp [fetchPages] at h
  | cons o rest ih =>
    intro acc p r h
    cases hs : svc (p.client).1 (entirePageRequest did ord o limit) with
    | error e =>
      simp only [fetchPages, hs] at h
      simp at h
      subst h
      simp [entirePageRequest]
    | ok rows =>
      simp only [fetchPages, hs, List.mem_cons] at h
      rcases h with h | h
      · cases h
        simp [entirePageRequest]
      · exact ih _ _ _ h

/- ### Claim theorems -/

/-- **C4** The remote handle is constructed at most once per instance, on
the first `client` access, from the token current at that moment and the
fixed portal address; later accesses return the same cached handle, and
setting the token afterwards neither changes nor rebuilds it. -/
theorem c4_client_constructed_once (p : WSLCBPortal) (v : String)
    (h : p._client = none) :
    (p.client).1 = { domain := WSLCB_PORTAL_URL, app_token := p._app_token }
  ∧ (p.client).2._client = some (p.client).1
  ∧ (p.client).2.client = ((p.client).1, (p.client).2)
  ∧ ((p.client).2.set_app_token v).client
      = ((p.client).1, (p.client).2.set_app_token v)
  ∧ ((p.client).2.set_app_token v)._client = (p.client).2._client := by
  refine ⟨?_, client_state p, client_idem p, ?_, rfl⟩
  · simp [WSLCBPortal.client, WSLCBPortal.app_token, h]
  · exact client_cached _ _ (client_state p)

/-- Witness for **C4** at a token-carrying, uninitialised instance. -/
theorem c4_client_constructed_once_witness :
    ((⟨"tok", none⟩ : WSLCBPortal).client).1
        = { domain := WSLCB_PORTAL_URL, app_token := "tok" }
  ∧ ((⟨"tok", none⟩ : WSLCBPortal).client).2._client
      = some ((⟨"tok", none⟩ : WSLCBPortal).client).1
  ∧ ((⟨"tok", none⟩ : WSLCBPortal).client).2.client
      = (((⟨"tok", none⟩ : WSLCBPortal).client).1,
         ((⟨"tok", none⟩ : WSLCBPortal).client).2)
  ∧ (((⟨"tok", none⟩ : WSLCBPortal).client).2.set_app_token "v2").client
      = (((⟨"tok", none⟩ : WSLCBPortal).client).1,
         ((⟨"tok", none⟩ : WSLCBPortal).client).2.set_app_token "v2")
  ∧ (((⟨"tok", none⟩ : WSLCBPortal).client).2.set_app_token "v2")._client
      = ((⟨"tok", none⟩ : WSLCBPortal).client).2._client :=
  c4_client_constructed_once ⟨"tok", none⟩ "v2" rfl

/-- **C5** At construction a non-empty explicit token wins and the
environment is not consulted; an empty explicit token falls back to the
environment variable; with both absent the stored token is empty. -/
theorem c5_token_precedence (t : String) (env env' : String → Option String) :
    (t ≠ "" → (WSLCBPortal.init t env)._app_token = t
        ∧ WSLCBPortal.init t env = WSLCBPortal.init t env')
  ∧ (t = "" → (WSLCBPortal.init t env)._app_token
        = (env "WSLCB_APP_TOKEN").getD "")
  ∧ (t = "" → env "WSLCB_APP_TOKEN" = none →
        (WSLCBPortal.init t env)._app_token = "") := by
  refine ⟨fun ht => ⟨?_, ?_⟩, fun ht => ?_, fun ht he => ?_⟩
  · simp [WSLCBPortal.init, ht]
  · simp [WSLCBPortal.init, ht]
  · simp [WSLCBPortal.init, ht]
  · simp [WSLCBPortal.init, ht, he]

/-- Witness for **C5**: all three precedence cases at concrete tokens and
environments. -/
theorem c5_token_precedence_witness :
    ((WSLCBPortal.init "tok" (fun _ => some "envtok"))._app_token = "tok"
      ∧ WSLCBPortal.init "tok" (fun _ => some "envtok")
          = WSLCBPortal.init "tok" (fun _ => none))
  ∧ (WSLCBPortal.init "" (fun _ => some "envtok"))._app_token = "envtok"
  ∧ (WSLCBPortal.init "" (fun _ => none))._app_token = "" := by
  refine ⟨(c5_token_precedence "tok" (fun _ => some "envtok")
      (fun _ => none)).1 (by decide), ?_,
    (c5_token_precedence "" (fun _ => none) (fun _ => none)).2.2 rfl rfl⟩
  have h := (c5_token_precedence "" (fun _ => some "envtok")
      (fun _ => none)).2.1 rfl
  simpa using h

/-- **C6** `get_dataset` issues exactly one remote query, and that query's
limit keyword is 100000. -/
theorem c6_get_dataset_single_capped_query (svc : Service) (p : WSLCBPortal)
    (dataset_id : String) :
    (get_dataset svc p dataset_id).trace
      = [Event.get { dataset_id := dataset_id, limit := some 100000 }]
  ∧ (pageRequest dataset_id).limit = some 100000 :=
  ⟨rfl, rfl⟩

/-- The count request carries no offset and is not a page request. -/
theorem pageRequestEvents_count_cons (did : String) (tr : List Event) :
    pageRequestEvents (Event.get (countRequest did) :: tr)
      = pageRequestEvents tr := by
  simp [pageRequestEvents, countRequest]

/-- The page requests among the paging events are the paging requests. -/
theorem pageRequestEvents_map (did ord : String) (limit : Nat)
    (offs : List Nat) :
    pageRequestEvents (offs.map
        (fun o => Event.get (entirePageRequest did ord o limit)))
      = offs.map (fun o => entirePageRequest did ord o limit) := by
  induction offs with
  | nil => rfl
  | cons o rest ih =>
    simp only [List.map_cons, pageRequestEvents, List.filterMap_cons] at ih ⊢
    simp only [entirePageRequest] at ih ⊢
    simpa using ih

/-- Reading the offsets back out of the paging requests. -/
theorem offsets_of_pageRequests (did ord : String) (limit : Nat)
    (offs : List Nat) :
    (offs.map (fun o => entirePageRequest did ord o limit)).filterMap
        (fun r => r.offset) = offs := by
  induction offs with
  | nil => rfl
  | cons o rest ih =>
    simp only [List.map_cons, List.filterMap_cons, entirePageRequest] at ih ⊢
    simpa using ih

/-- Normal-form run of `get_entire_dataset`: when the count query answers
`count` and every visited page succeeds, the run issues the count request
followed by one paging request per offset and returns the pages
concatenated in offset order. -/
theorem get_entire_dataset_ok (svc : Service) (p : WSLCBPortal)
    (did ord : String) (count : Int) (pages : Nat → List Row)
    (hcount : (get_dataset_count svc p did).res = .ok count)
    (hpages : ∀ k ∈ pageOffsets count,
      svc (p.client).1 (entirePageRequest did ord k 100000) = .ok (pages k)) :
    get_entire_dataset svc p did ord =
      ⟨Event.get (countRequest did) ::
          (pageOffsets count).map
            (fun o => Event.get (entirePageRequest did ord o 100000)),
       .ok (((pageOffsets count).map pages).flatten),
       (p.client).2⟩ := by
  have hfetch := fetchPages_ok svc did ord 100000 (p.client).1 (p.client).2
    (client_idem p) pages (pageOffsets count) [] hpages
  have hstate : (get_dataset_count svc p did).state = (p.client).2 := rfl
  have htrace : (get_dataset_count svc p did).trace
      = [Event.get (countRequest did)] := rfl
  simp only [get_entire_dataset]
  rw [hcount]
  dsimp only
  rw [hstate, htrace, hfetch]
  simp

/-- Failing run of `get_entire_dataset`: when the count query answers
`count`, the pages before offset `k` succeed and the page at `k` raises
`e`, the run ends with that error, issues no request after the failing one
and returns none of the accumulated rows. -/
theorem get_entire_dataset_error (svc : Service) (p : WSLCBPortal)
    (did ord : String) (count : Int) (pages : Nat → List Row) (k : Nat)
    (e : PyError) (pre post : List Nat)
    (hcount : (get_dataset_count svc p did).res = .ok count)
    (hsplit : pageOffsets count = pre ++ k :: post)
    (hpre : ∀ o ∈ pre,
      svc (p.client).1 (entirePageRequest did ord o 100000) = .ok (pages o))
    (hk : svc (p.client).1 (entirePageRequest did ord k 100000) = .error e) :
    get_entire_dataset svc p did ord =
      ⟨Event.get (countRequest did) ::
          (pre.map (fun o => Event.get (entirePageRequest did ord o 100000))
            ++ [Event.get (entirePageRequest did ord k 100000)]),
       .error e, (p.client).2⟩ := by
  have hfetch := fetchPages_error svc did ord 100000 (p.client).1 (p.client).2
    (client_idem p) pages k e post pre [] hpre hk
  have hstate : (get_dataset_count svc p did).state = (p.client).2 := rfl
  have htrace : (get_dataset_count svc p did).trace
      = [Event.get (countRequest did)] := rfl
  simp only [get_entire_dataset]
  rw [hcount]
  dsimp only
  rw [hstate, hsplit, htrace, hfetch]
  simp

/-- **C1** With a total count `N`, `get_entire_dataset` issues exactly
`⌈N/100000⌉` page requests at offsets 0, 100000, 200000, …, strictly
ascending and each below `N`; if each page at offset `k` holds
`min 100000 (N - k)` rows the concatenated result has length `N`; and for
`N = 0` no page request is issued and the result is empty. -/
theorem c1_get_all_pagination (svc : Service) (p : WSLCBPortal)
    (did ord : String) (N : Nat) (pages : Nat → List Row)
    (hcount : (get_dataset_count svc p did).res = .ok (N : Int))
    (hpages : ∀ k,
      svc (p.client).1 (entirePageRequest did ord k 100000) = .ok (pages k))
    (hlen : ∀ k, k < N → (pages k).length = min 100000 (N - k)) :
    (pageRequestEvents (get_entire_dataset svc p did ord).trace).map
        (fun r => r.offset)
      = (List.range ((N + 99999) / 100000)).map (fun i => some (i * 100000))
  ∧ List.Chain' (fun a b => a < b)
      ((pageRequestEvents (get_entire_dataset svc p did ord).trace).filterMap
        (fun r => r.offset))
  ∧ (∀ k ∈ (pageRequestEvents
        (get_entire_dataset svc p did ord).trace).filterMap (fun r => r.offset),
      k < N)
  ∧ (∃ rows, (get_entire_dataset svc p did ord).res = .ok rows
      ∧ rows.length = N)
  ∧ (N = 0 → (get_entire_dataset svc p did ord).res = .ok []
      ∧ pageRequestEvents (get_entire_dataset svc p did ord).trace = []) := by
  have hmain := get_entire_dataset_ok svc p did ord (N : Int) pages hcount
    (fun k _ => hpages k)
  rw [hmain]
  dsimp only
  rw [pageRequestEvents_count_cons, pageRequestEvents_map]
  refine ⟨?_, ?_, ?_, ?_, ?_⟩
  · rw [pageOffsets_natCast, List.map_map, List.map_map]
    apply List.map_congr_left
    intro i _
    simp [entirePageRequest]
  · rw [offsets_of_pageRequests]
    exact (pageOffsets_pairwise _).chain'
  · rw [offsets_of_pageRequests]
    intro k hk
    rw [pageOffsets_natCast] at hk
    exact pageOffsets_lt N k hk
  · refine ⟨_, rfl, ?_⟩
    rw [List.length_flatten]
    have hmap : List.map List.length (List.map pages (pageOffsets (N : Int)))
        = List.map (fun k => min 100000 (N - k)) (pageOffsets (N : Int)) := by
      rw [List.map_map]
      apply List.map_congr_left
      intro k hk
      have hkN : k < N :=
        pageOffsets_lt N k (by rwa [pageOffsets_natCast] at hk)
      simp [hlen k hkN]
    rw [hmap, pageOffsets_natCast]
    exact sum_min_pages N
  · intro h0
    subst h0
    have hz : pageOffsets ((0 : Nat) : Int) = [] := by
      norm_num [pageOffsets]
    rw [hz]
    simp

/-- Witness for **C1**: a 250 000-row dataset is fetched in three pages at
offsets 0, 100000, 200000 and yields 250 000 rows. -/
theorem c1_get_all_pagination_witness :
    (pageRequestEvents
        (get_entire_dataset svc250k portal0 "w7wg-8m52" "date").trace).map
        (fun r => r.offset)
      = (List.range ((250000 + 99999) / 100000)).map
          (fun i => some (i * 100000))
  ∧ (∃ rows,
      (get_entire_dataset svc250k portal0 "w7wg-8m52" "date").res = .ok rows
        ∧ rows.length = 250000) := by
  have h := c1_get_all_pagination svc250k portal0 "w7wg-8m52" "date" 250000
    pages250k (by rfl) (fun k => rfl) (fun k hk => by simp [pages250k])
  exact ⟨h.1, h.2.2.2.1⟩

/-- **C3** When every visited page succeeds, `get_entire_dataset` returns
exactly the concatenation of the page results in ascending offset order,
each page's rows kept in the order the remote call returned them. -/
theorem c3_concatenation_order (svc : Service) (p : WSLCBPortal)
    (did ord : String) (count : Int) (pages : Nat → List Row)
    (hcount : (get_dataset_count svc p did).res = .ok count)
    (hpages : ∀ k ∈ pageOffsets count,
      svc (p.client).1 (entirePageRequest did ord k 100000) = .ok (pages k)) :
    (get_entire_dataset svc p did ord).res
      = .ok (((pageOffsets count).map pages).flatten) := by
  rw [get_entire_dataset_ok svc p did ord count pages hcount hpages]

/-- Witness for **C3**: a 150 000-row dataset with one marked row per page
comes back as the two pages concatenated in offset order. -/
theorem c3_concatenation_order_witness :
    (get_entire_dataset svc150k portal0 "w7wg-8m52" "date").res
      = .ok [[("a", "0")], [("a", "1")]] := by
  have h := c3_concatenation_order svc150k portal0 "w7wg-8m52" "date" 150000
    pages150k (by rfl) (fun k _ => by cases k <;> rfl)
  exact h

/-- **C2** If the page at offset `k` raises during `get_entire_dataset`
(all earlier pages having succeeded), the whole operation raises that
error, no accumulated rows are returned, and the failed request is not
retried: it occurs exactly once in the trace and nothing follows it. -/
theorem c2_page_failure_aborts (svc : Service) (p : WSLCBPortal)
    (did ord : String) (count : Int) (pages : Nat → List Row) (k : Nat)
    (e : PyError) (pre post : List Nat)
    (hcount : (get_dataset_count svc p did).res = .ok count)
    (hsplit : pageOffsets count = pre ++ k :: post)
    (hpre : ∀ o ∈ pre,
      svc (p.client).1 (entirePageRequest did ord o 100000) = .ok (pages o))
    (hk : svc (p.client).1 (entirePageRequest did ord k 100000) = .error e) :
    (get_entire_dataset svc p did ord).res = .error e
  ∧ (get_entire_dataset svc p did ord).trace
      = Event.get (countRequest did) ::
          (pre.map (fun o => Event.get (entirePageRequest did ord o 100000))
            ++ [Event.get (entirePageRequest did ord k 100000)])
  ∧ (get_entire_dataset svc p did ord).trace.count
      (Event.get (entirePageRequest did ord k 100000)) = 1 := by
  have hmain := get_entire_dataset_error svc p did ord count pages k e pre post
    hcount hsplit hpre hk
  have hne : ∀ o ∈ pre, o ≠ k := by
    have hpw := pageOffsets_pairwise count
    rw [hsplit] at hpw
    intro o ho
    have := (List.pairwise_append.mp hpw).2.2 o ho k (by simp)
    omega
  rw [hmain]
  dsimp only
  refine ⟨rfl, rfl, ?_⟩
  have hmem : Event.get (entirePageRequest did ord k 100000)
      ∉ pre.map (fun o => Event.get (entirePageRequest did ord o 100000)) := by
    intro hmem
    obtain ⟨o, ho, heq⟩ := List.mem_map.mp hmem
    simp [entirePageRequest] at heq
    exact hne o ho heq
  have hc0 : Event.get (countRequest did)
      ≠ Event.get (entirePageRequest did ord k 100000) := by
    simp [countRequest, entirePageRequest]
  rw [List.count_cons, List.count_append,
    List.count_eq_zero.mpr hmem]
  simp [hc0]

/-- Witness for **C2**: with a 150 000-row count, the first page succeeds
and the second raises; the whole fetch raises that error and the failed
request appears exactly once in the trace. -/
theorem c2_page_failure_aborts_witness :
    (get_entire_dataset svcFail portal0 "w7wg-8m52" "date").res
      = .error (.remoteError 7)
  ∧ (get_entire_dataset svcFail portal0 "w7wg-8m52" "date").trace.count
      (Event.get (entirePageRequest "w7wg-8m52" "date" 100000 100000)) = 1 := by
  have h := c2_page_failure_aborts svcFail portal0 "w7wg-8m52" "date" 150000
    pages150k 100000 (.remoteError 7) [0] [] (by rfl) (by rfl)
    (fun o ho => by
      have : o = 0 := by simpa using ho
      subst this
      rfl)
    (by rfl)
  exact ⟨h.1, h.2.2⟩

/-- **C7 (amended)** `get_dataset_count` issues a single count-only query
and converts the single result's `count` field with `int`; a raising
remote call propagates unchanged; an empty remote result raises an
index-lookup error (`metadata[0]`); a non-numeric count field raises a
conversion error.  (The claim as stated labels the empty-result failure a
conversion error as well; the code raises `IndexError` there.) -/
theorem c7_count_conversion (svc : Service) (p : WSLCBPortal)
    (did : String) :
    (get_dataset_count svc p did).trace = [Event.get (countRequest did)]
  ∧ (∀ e, svc (p.client).1 (countRequest did) = .error e →
      (get_dataset_count svc p did).res = .error e)
  ∧ (svc (p.client).1 (countRequest did) = .ok [] →
      (get_dataset_count svc p did).res = .error .indexError)
  ∧ (∀ row rest s n, svc (p.client).1 (countRequest did) = .ok (row :: rest) →
      lookupField row "count" = .ok s → pyInt s = .ok n →
      (get_dataset_count svc p did).res = .ok n)
  ∧ (∀ row rest s, svc (p.client).1 (countRequest did) = .ok (row :: rest) →
      lookupField row "count" = .ok s → pyInt s = .error (.valueError s) →
      (get_dataset_count svc p did).res = .error (.valueError s)) := by
  have hres : (get_dataset_count svc p did).res
      = match svc (p.client).1 (countRequest did) with
        | .error e => .error e
        | .ok [] => .error .indexError
        | .ok (row :: _) => (lookupField row "count").bind pyInt := rfl
  refine ⟨rfl, ?_, ?_, ?_, ?_⟩
  · intro e he
    rw [hres, he]
  · intro he
    rw [hres, he]
  · intro row rest s n hsvc hl hp
    rw [hres, hsvc]
    dsimp only
    rw [hl]
    simpa using hp
  · intro row rest s hsvc hl hp
    rw [hres, hsvc]
    dsimp only
    rw [hl]
    simpa using hp

/-- Counterexample to **C7** as stated: on an empty remote count result
the operation fails with an `IndexError`, which is not a conversion
(`ValueError`) failure. -/
theorem c7_count_conversion_counterexample :
    (get_dataset_count svcEmpty portal0 "w7wg-8m52").res
      = .error .indexError
  ∧ PyError.indexError.isValueError = false :=
  ⟨rfl, rfl⟩

/-- Witness for **C7 (amended)**: the empty-result and the successful
single-result cases at concrete services. -/
theorem c7_count_conversion_witness :
    (get_dataset_count svcEmpty portal0 "w7wg-8m52").res
      = .error PyError.indexError
  ∧ (get_dataset_count svc1 portal0 "w7wg-8m52").res = .ok 1 := by
  refine ⟨(c7_count_conversion svcEmpty portal0 "w7wg-8m52").2.2.1 rfl, ?_⟩
  exact (c7_count_conversion svc1 portal0 "w7wg-8m52").2.2.2.1
    [("count", "1")] [] "1" 1 rfl rfl (by rfl)

/-- **C8** For a dataset id absent from the static column table (and a
page fetch that returns), `get_dataframe` raises the key-lookup failure,
never reaches frame construction, and returns no frame. -/
theorem c8_dataframe_unknown_id (svc : Service) (p : WSLCBPortal)
    (did : String) (rows : List Row)
    (hid : WSLCB_PORTAL_DATASET_COLUMNS.find? (fun kv => kv.1 == did) = none)
    (hok : svc (p.client).1 (pageRequest did) = .ok rows) :
    (get_dataframe svc p did).res = .error (.keyError did)
  ∧ (∀ cols, Event.mkFrame cols ∉ (get_dataframe svc p did).trace)
  ∧ (∀ df, (get_dataframe svc p did).res ≠ .ok df) := by
  have hcols : datasetColumns did = .error (.keyError did) := by
    simp only [datasetColumns]
    rw [hid]
  have hmain : get_dataframe svc p did
      = ⟨[Event.get (pageRequest did)], .error (.keyError did),
         (p.client).2⟩ := by
    simp only [get_dataframe, get_dataset]
    rw [hok]
    dsimp only
    rw [hcols]
  rw [hmain]
  refine ⟨rfl, ?_, ?_⟩
  · intro cols
    simp
  · intro df
    simp

/-- Witness for **C8** at an id outside the eight-entry table. -/
theorem c8_dataframe_unknown_id_witness :
    (get_dataframe svcEmpty portal0 "zzzz-zzzz").res
      = .error (.keyError "zzzz-zzzz")
  ∧ Event.mkFrame ["date"]
      ∉ (get_dataframe svcEmpty portal0 "zzzz-zzzz").trace := by
  have h := c8_dataframe_unknown_id svcEmpty portal0 "zzzz-zzzz" []
    (by rfl) rfl
  exact ⟨h.1, h.2.1 ["date"]⟩

/-- **C9** Every page request issued by `get_entire_dataset` — the final
one included — carries a limit of exactly 100000; a shorter final page can
only come from the remote service returning fewer rows. -/
theorem c9_constant_limit (svc : Service) (p : WSLCBPortal)
    (did ord : String) (r : GetRequest)
    (h : Event.get r ∈ (get_entire_dataset svc p did ord).trace)
    (hoff : r.offset.isSome = true) :
    r.limit = some 100000 := by
  rcases hres : (get_dataset_count svc p did).res with e | count
  · have htr : (get_entire_dataset svc p did ord).trace
        = [Event.get (countRequest did)] := by
      simp only [get_entire_dataset]
      rw [hres]
      rfl
    rw [htr] at h
    simp at h
    subst h
    simp [countRequest] at hoff
  · have htr : (get_entire_dataset svc p did ord).trace
        = Event.get (countRequest did) ::
            (fetchPages svc did ord 100000 (pageOffsets count) []
              (p.client).2).trace := by
      simp only [get_entire_dataset]
      rw [hres]
      rfl
    rw [htr] at h
    rcases List.mem_cons.mp h with h1 | h2
    · injection h1 with hr
      subst hr
      simp [countRequest] at hoff
    · exact (fetchPages_limit svc did ord 100000 (pageOffsets count) [] _ r
        h2).1

/-- Witness for **C9**: the single page request of a one-row dataset is in
the trace, has an offset, and carries the full 100000 limit. -/
theorem c9_constant_limit_witness :
    Event.get (entirePageRequest "w7wg-8m52" "date" 0 100000)
      ∈ (get_entire_dataset svc1 portal0 "w7wg-8m52" "date").trace
  ∧ (entirePageRequest "w7wg-8m52" "date" 0 100000).limit = some 100000 :=
  ⟨by decide,
   c9_constant_limit svc1 portal0 "w7wg-8m52" "date" _ (by decide) (by decide)⟩

/-- **C10** No fetch operation modifies the stored token (only the setter
does), and the handle field changes at most once per instance: every fetch
operation leaves the state exactly as one `client` access does, a `client`
access preserves the token and caches the returned handle, an
already-cached instance is left untouched, and the setter touches only the
token. -/
theorem c10_fetch_frame (svc : Service) (msvc : MetaService)
    (localtime : Int → StructTime) (p : WSLCBPortal) (v : String)
    (did ord : String) :
    (get_dataset_metadata msvc p did).state = (p.client).2
  ∧ (get_dataset_count svc p did).state = (p.client).2
  ∧ (get_dataset svc p did).state = (p.client).2
  ∧ (get_entire_dataset svc p did ord).state = (p.client).2
  ∧ (get_dataframe svc p did).state = (p.client).2
  ∧ (dataset_last_updated msvc localtime p did).state = (p.client).2
  ∧ (p.client).2._app_token = p._app_token
  ∧ (p.client).2._client = some (p.client).1
  ∧ (∀ c, p._client = some c → p.client = (c, p))
  ∧ (p.set_app_token v)._app_token = v
  ∧ (p.set_app_token v)._client = p._client := by
  refine ⟨rfl, rfl, rfl, ?_, ?_, rfl, client_token p, client_state p,
    fun c hc => client_cached p c hc, rfl, rfl⟩
  · rcases hres : (get_dataset_count svc p did).res with e | count
    · simp only [get_entire_dataset]
      rw [hres]
      rfl
    · simp only [get_entire_dataset]
      rw [hres]
      dsimp only
      exact fetchPages_state svc did ord 100000 (p.client).1 (p.client).2
        (client_idem p) (pageOffsets count) []
  · rcases hres : svc (p.client).1 (pageRequest did) with e | rows
    · simp only [get_dataframe, get_dataset]
      rw [hres]
    · simp only [get_dataframe, get_dataset]
      rw [hres]
      dsimp only
      rcases hcols : datasetColumns did with e | cols
      · rfl
      · rfl

/-- Witness for **C10** at an already-initialised instance: a full fetch
leaves the state at the post-access state, the token survives, the cached
handle is returned unchanged, and the setter leaves the handle alone. -/
theorem c10_fetch_frame_witness :
    (get_entire_dataset svc1 (⟨"t", some ⟨"d", "t"⟩⟩ : WSLCBPortal)
        "w7wg-8m52" "date").state
      = ((⟨"t", some ⟨"d", "t"⟩⟩ : WSLCBPortal).client).2
  ∧ ((⟨"t", some ⟨"d", "t"⟩⟩ : WSLCBPortal).client).2._app_token = "t"
  ∧ (⟨"t", some ⟨"d", "t"⟩⟩ : WSLCBPortal).client
      = (⟨"d", "t"⟩, (⟨"t", some ⟨"d", "t"⟩⟩ : WSLCBPortal))
  ∧ ((⟨"t", some ⟨"d", "t"⟩⟩ : WSLCBPortal).set_app_token "v")._client
      = some ⟨"d", "t"⟩ := by
  obtain ⟨h1, h2, h3, h4, h5, h6, h7, h8, h9, h10, h11⟩ :=
    c10_fetch_frame svc1 (fun _ _ => .ok []) (fun t => ⟨t⟩)
      (⟨"t", some ⟨"d", "t"⟩⟩ : WSLCBPortal) "v" "w7wg-8m52" "date"
  exact ⟨h4, h7, h9 ⟨"d", "t"⟩ rfl, h11⟩
